import Mathlib

/-!
Shallow embedding of the SVID-rotation ping service: credential loading
(`loadCredentials`), the rotation watcher (`SVIDMonitor`), the server
lifecycle manager (`ServerManager`), the restart-signal coalescing
scheduler, the bootstrap glue, and the `/ping` route handler.

The repository snapshot contains only the jest test suite
(src/jest-tests.ts); the implementation modules helpers.ts, server.ts and
ping-service.ts it imports are absent. Each definition below is therefore
reconstructed from the design document and from the concrete behaviour
the test suite pins down (mocked return values, call assertions, logged
strings, synchronous callback observations).
-/

/-- The three configured credential file paths (leaf cert, private key,
trust bundle), each overridable by environment variable in the code; the
override is modelled by quantifying over `SvidPaths`. -/
structure SvidPaths where
  certPath : String
  keyPath : String
  bundlePath : String
deriving DecidableEq, Repr

/-- The documented default SPIRE agent output paths, asserted verbatim by
the tests (src/jest-tests.ts lines 51-53 and 132-136). -/
def defaultPaths : SvidPaths :=
  { certPath := "/run/spire/x509svid/svid.0.pem"
    keyPath := "/run/spire/x509svid/svid.0.key"
    bundlePath := "/run/spire/x509svid/bundle.0.pem" }

/-- The configured credential files in the fixed read order cert, key,
bundle. -/
def svidFiles (p : SvidPaths) : List String :=
  [p.certPath, p.keyPath, p.bundlePath]

/-- The TLS credential record `loadCredentials` builds: the three file
contents plus the fixed mTLS policy flags `requestCert` and
`rejectUnauthorized` (src/jest-tests.ts lines 42-48). -/
structure Credentials where
  cert : String
  key : String
  ca : String
  requestCert : Bool
  rejectUnauthorized : Bool
deriving DecidableEq, Repr

/-- Filesystem read model: `fs.readFileSync` either returns the file's
content or throws, carrying an error message. -/
abbrev FSModel := String → Except String String

/-- Everything one call of `loadCredentials` does: its return value, the
console lines it emits, and the reads it performs (in order). -/
structure LoadOutcome where
  result : Option Credentials
  logs : List String
  reads : List String
deriving DecidableEq, Repr

/-- Modelled from the spec: `loadCredentials` of helpers.ts, which is not
in the repository snapshot; reconstructed from spec section 4.1 and the
unit tests (src/jest-tests.ts lines 26-110). It reads the cert, key and
bundle files in that fixed order; on success it returns the three
contents with `requestCert = rejectUnauthorized = true`; the first read
failure aborts the whole operation, logs
`Error loading credentials: <cause>` and `Retrying in 5 seconds...`
(both asserted at lines 72-73) and returns null (`none`, line 69). -/
def loadCredentials (fs : FSModel) (p : SvidPaths) : LoadOutcome :=
  match fs p.certPath with
  | .error e =>
      { result := none
        logs := ["Error loading credentials: " ++ e, "Retrying in 5 seconds..."]
        reads := [p.certPath] }
  | .ok certBytes =>
      match fs p.keyPath with
      | .error e =>
          { result := none
            logs := ["Error loading credentials: " ++ e, "Retrying in 5 seconds..."]
            reads := [p.certPath, p.keyPath] }
      | .ok keyBytes =>
          match fs p.bundlePath with
          | .error e =>
              { result := none
                logs := ["Error loading credentials: " ++ e, "Retrying in 5 seconds..."]
                reads := [p.certPath, p.keyPath, p.bundlePath] }
          | .ok caBytes =>
              { result := some
                  { cert := certBytes, key := keyBytes, ca := caBytes
                    requestCert := true, rejectUnauthorized := true }
                logs := []
                reads := [p.certPath, p.keyPath, p.bundlePath] }

/-- Whether a read attempt failed. -/
def isErr (r : Except String String) : Bool :=
  match r with
  | .error _ => true
  | .ok _ => false

/-- A concrete filesystem on which all three default-path reads succeed. -/
def fsAllOk : FSModel := fun q =>
  if q = defaultPaths.certPath then .ok "mock-cert"
  else if q = defaultPaths.keyPath then .ok "mock-key"
  else if q = defaultPaths.bundlePath then .ok "mock-ca"
  else .error ("Unexpected path: " ++ q)

/-- A concrete filesystem on which every read throws `File not found`. -/
def fsNotFound : FSModel := fun _ => .error "File not found"

/-- A concrete filesystem on which every read throws a permission error. -/
def fsDenied : FSModel := fun _ => .error "EACCES: permission denied"

/-- The credentials `loadCredentials` produces on `fsAllOk`. -/
def credsOk : Credentials :=
  { cert := "mock-cert", key := "mock-key", ca := "mock-ca"
    requestCert := true, rejectUnauthorized := true }

/-- Watcher states of the rotation monitor's state machine. -/
inductive WatchState where
  | awaitingFiles
  | watchingFiles
deriving DecidableEq, Repr

/-- What the monitor subscribed chokidar to: the exact file paths, or the
containing directory while awaiting first creation. -/
inductive WatchTarget where
  | files (paths : List String)
  | directory (path : String)
deriving DecidableEq, Repr

/-- Observable subscription state of one `SVIDMonitor`. -/
structure SVIDMonitor where
  state : WatchState
  target : WatchTarget
  subscribedEvents : List String
deriving DecidableEq, Repr

/-- Directory containing a path (everything before the last `/`). -/
def dirname (s : String) : String :=
  String.intercalate "/" ((s.splitOn "/").dropLast)

/-- The monitor in file-watching mode: subscribed to the three exact paths
and to the `change` and `error` events (src/jest-tests.ts lines 131-140). -/
def watchMonitor (p : SvidPaths) : SVIDMonitor :=
  { state := .watchingFiles
    target := .files (svidFiles p)
    subscribedEvents := ["change", "error"] }

/-- The monitor in awaiting mode: subscribed to the containing directory
and to the `add` event (src/jest-tests.ts lines 164-168). -/
def awaitMonitor (p : SvidPaths) : SVIDMonitor :=
  { state := .awaitingFiles
    target := .directory (dirname p.certPath)
    subscribedEvents := ["add"] }

/-- Modelled from the spec: `SVIDMonitor.init` of helpers.ts, which is not
in the repository snapshot; reconstructed from spec section 4.2 and the
unit tests (src/jest-tests.ts lines 113-172). `ex` is `fs.existsSync`:
when all three configured files exist the monitor starts watching the
exact file paths, otherwise it watches the containing directory for
`add` events. -/
def SVIDMonitor.init (ex : String → Bool) (p : SvidPaths) : SVIDMonitor :=
  if (svidFiles p).all ex then watchMonitor p else awaitMonitor p

/-- Modelled from the spec: the awaiting-mode `add`-event handler of
helpers.ts, which is not in the repository snapshot; reconstructed from
spec section 4.2. On an entry-added event the monitor, while still in
`awaitingFiles`, re-checks existence (`ex` is the existence predicate at
that moment); once all three expected files are present it re-subscribes
to the exact file paths and fires the rotation callback once (the
returned count). In watching mode `add` events do nothing. -/
def SVIDMonitor.onAdd (m : SVIDMonitor) (p : SvidPaths) (ex : String → Bool) :
    SVIDMonitor × Nat :=
  match m.state with
  | .awaitingFiles =>
      if (svidFiles p).all ex then (watchMonitor p, 1) else (m, 0)
  | .watchingFiles => (m, 0)

/-- Existence predicate after a list of files has additionally been
created on disk. -/
def extendEx (ex : String → Bool) (adds : List String) : String → Bool :=
  fun q => ex q || decide (q ∈ adds)

/-- Run a sequence of `add` events against a monitor: each event reports
one newly created path (existence accumulates) and the handler re-checks
the then-current existence predicate. Returns the final monitor and the
total number of rotation-callback invocations fired by transitions. -/
def runAdds (p : SvidPaths) (ex : String → Bool) (adds : List String)
    (m : SVIDMonitor) : SVIDMonitor × Nat :=
  match adds with
  | [] => (m, 0)
  | a :: rest =>
      let exA : String → Bool := fun q => ex q || decide (q = a)
      let r := m.onAdd p exA
      let r2 := runAdds p exA rest r.1
      (r2.1, r.2 + r2.2)

/-- One raw filesystem change notification: when it arrives and for which
path. -/
structure ChangeEvent where
  time : Nat
  path : String
deriving DecidableEq, Repr

/-- The watching-mode `change` handler of helpers.ts (file not in the
repository snapshot), reconstructed from the unit test at
src/jest-tests.ts lines 174-203: firing the `change` event for a watched
path invokes the rotation callback immediately — the test asserts the
callback synchronously, inside the same event dispatch, with no timers
installed, so no debounce timer exists between the raw event and the
callback. Given the raw events, returns the times at which the rotation
callback runs: once per change event on a watched path, at that event's
own time. -/
def processChanges (watched : List String) (evs : List ChangeEvent) : List Nat :=
  evs.filterMap (fun e => if e.path ∈ watched then some e.time else none)

/-- Observable lifecycle events of the server manager. Server objects are
identified by a creation counter so that "the old listener" and "the new
listener" are distinct identities. -/
inductive ServerEvent where
  | createdServer (id : Nat) (creds : Credentials)
  | listened (id : Nat)
  | closedServer (id : Nat)
deriving DecidableEq, Repr

/-- Observable state of one `ServerManager`: the id the next created
server will get, the currently held server (if any) and its credentials. -/
structure ServerManager where
  nextId : Nat
  active : Option Nat
  activeCreds : Option Credentials
deriving DecidableEq, Repr

/-- A fresh manager: routes registered, no server yet. -/
def newManager : ServerManager :=
  { nextId := 0, active := none, activeCreds := none }

/-- `ServerManager.createServer` of server.ts (file not in the repository
snapshot), reconstructed from spec section 4.3 and src/jest-tests.ts
lines 275-286: builds a new https server from the credentials and holds
it; does not yet listen. -/
def ServerManager.createServer (m : ServerManager) (c : Credentials) :
    ServerManager × List ServerEvent :=
  ({ nextId := m.nextId + 1, active := some m.nextId, activeCreds := some c },
   [ServerEvent.createdServer m.nextId c])

/-- `ServerManager.start` of server.ts (file not in the repository
snapshot), reconstructed from spec section 4.3 and src/jest-tests.ts
lines 275-286: the held server starts listening on the configured port. -/
def ServerManager.start (m : ServerManager) : ServerManager × List ServerEvent :=
  (m, match m.active with
      | some i => [ServerEvent.listened i]
      | none => [])

/-- `ServerManager.close` of server.ts (file not in the repository
snapshot), reconstructed from spec section 4.3 and src/jest-tests.ts
lines 288-298: closes the held server. -/
def ServerManager.close (m : ServerManager) : ServerManager × List ServerEvent :=
  (m, match m.active with
      | some i => [ServerEvent.closedServer i]
      | none => [])

/-- Modelled from the spec: `ServerManager.restart` of server.ts, which is
not in the repository snapshot; reconstructed from spec section 4.3 and
the unit tests (src/jest-tests.ts lines 300-341). It re-invokes
`loadCredentials`. When that returns null it creates nothing, listens on
nothing, leaves the held server untouched and returns self (asserted at
lines 331-340). When it returns credentials and the new listener binds
(`bindOk`), it creates a new server, binds it, and only then closes the
previous one and swaps the active reference; on a bind failure the old
listener stays authoritative (spec section 4.3). Returns the new manager
state and the ordered event trace of the call. -/
def ServerManager.restart (fs : FSModel) (p : SvidPaths) (bindOk : Bool)
    (m : ServerManager) : ServerManager × List ServerEvent :=
  match (loadCredentials fs p).result with
  | none => (m, [])
  | some c =>
      if bindOk then
        ({ nextId := m.nextId + 1, active := some m.nextId, activeCreds := some c },
         [ServerEvent.createdServer m.nextId c, ServerEvent.listened m.nextId] ++
           (match m.active with
            | some old => [ServerEvent.closedServer old]
            | none => []))
      else
        ({ m with nextId := m.nextId + 1 },
         [ServerEvent.createdServer m.nextId c])

/-- Modelled from the spec: the restart-signal coalescing scheduler of
spec section 5, which has no implementation file in the repository
snapshot: at most one restart is in flight; a rotation signal arriving
while one runs sets a single pending slot; completion re-runs once when
the slot is set. -/
structure RestartScheduler where
  running : Bool
  pending : Bool
  restartsStarted : Nat
deriving DecidableEq, Repr

/-- Events driving the scheduler: a rotation signal arrives, or the
in-flight restart completes. -/
inductive RotSig where
  | rotation
  | complete
deriving DecidableEq, Repr

/-- Modelled from the spec: one scheduler step (spec section 5). A
rotation signal starts a restart when idle and otherwise only marks the
pending slot; completion re-runs exactly once when the slot is set. -/
def schedStep (s : RestartScheduler) : RotSig → RestartScheduler
  | .rotation =>
      if s.running then { s with pending := true }
      else { running := true, pending := s.pending
             restartsStarted := s.restartsStarted + 1 }
  | .complete =>
      if s.pending then { running := true, pending := false
                          restartsStarted := s.restartsStarted + 1 }
      else { s with running := false }

/-- Run the scheduler over a signal sequence. -/
def schedRun (s : RestartScheduler) (sigs : List RotSig) : RestartScheduler :=
  sigs.foldl schedStep s

/-- Observable outcome of process bootstrap. -/
structure SystemState where
  manager : ServerManager
  serverCreated : Bool
  serverStarted : Bool
  monitor : SVIDMonitor
  monitorInited : Bool
  restartCalls : Nat
deriving DecidableEq, Repr

/-- Modelled from the spec: the bootstrap glue (`initialize`) of
ping-service.ts, which is not in the repository snapshot; reconstructed
from spec section 2 and the unit tests (src/jest-tests.ts lines
607-689). It runs the initial `loadCredentials`; only when that
succeeds does it create and start the server with those credentials
(lines 641-648 versus 683-684); the `SVIDMonitor` is constructed with a
callback that invokes `ServerManager.restart` and is initialized in
either case (lines 650-652 and 686-687). -/
def bootstrapService (fs : FSModel) (ex : String → Bool) : SystemState :=
  match (loadCredentials fs defaultPaths).result with
  | some c =>
      { manager := ((newManager.createServer c).1.start).1
        serverCreated := true
        serverStarted := true
        monitor := SVIDMonitor.init ex defaultPaths
        monitorInited := true
        restartCalls := 0 }
  | none =>
      { manager := newManager
        serverCreated := false
        serverStarted := false
        monitor := SVIDMonitor.init ex defaultPaths
        monitorInited := true
        restartCalls := 0 }

/-- Modelled from the spec: delivery of one rotation callback to the
bootstrapped system (src/jest-tests.ts lines 654-656): the callback the
monitor was constructed with invokes `ServerManager.restart` on the
bootstrap's manager. Returns the system after the callback and the
restart's event trace. -/
def deliverRotation (fs : FSModel) (bindOk : Bool) (st : SystemState) :
    SystemState × List ServerEvent :=
  let r := ServerManager.restart fs defaultPaths bindOk st.manager
  ({ st with manager := r.1, restartCalls := st.restartCalls + 1 }, r.2)

/-- An HTTP response the ping handler sends. -/
structure PingResponse where
  status : Nat
  body : String
deriving DecidableEq, Repr

/-- The outbound https request the ping handler makes to the pong
service (src/jest-tests.ts lines 462-475). -/
structure OutboundRequest where
  hostname : String
  port : String
  path : String
  method : String
  cert : String
  key : String
  ca : String
  rejectUnauthorized : Bool
deriving DecidableEq, Repr

/-- Modelled from the spec: the `/ping` route handler of ping-service.ts,
which is not in the repository snapshot; reconstructed from the unit
tests (src/jest-tests.ts lines 414-557). `creds` is what
`loadCredentials` returns at request time; `pong` is the pong service's
reply (content, or a communication error). When no credentials are
available it responds 500 `Server credentials not available` and makes
no outbound request (lines 491-512); otherwise it sends a GET to the
pong service with the loaded mTLS material and relays the reply. -/
def pingHandler (pongHost pongPort pongPath : String)
    (creds : Option Credentials) (pong : Except String String) :
    PingResponse × Option OutboundRequest :=
  match creds with
  | none => ({ status := 500, body := "Server credentials not available" }, none)
  | some c =>
      let req : OutboundRequest :=
        { hostname := pongHost, port := pongPort, path := pongPath
          method := "GET", cert := c.cert, key := c.key, ca := c.ca
          rejectUnauthorized := true }
      match pong with
      | .ok data =>
          ({ status := 200, body := "Ping sent, received: " ++ data }, some req)
      | .error _ =>
          ({ status := 500, body := "Error communicating with pong service" }, some req)

/-- A concrete existence predicate: no file exists. -/
def exNone : String → Bool := fun _ => false

/-- Claim C1: when the credential reload fails (`loadCredentials` returns
null), `ServerManager.restart` leaves the manager state — in particular
the active listener reference — unchanged (it literally returns self),
and its event trace is empty: no server is created, no listen/bind is
attempted, and the old listener is not closed. -/
theorem C1_restart_load_failure (fs : FSModel) (p : SvidPaths) (bindOk : Bool)
    (m : ServerManager) (h : (loadCredentials fs p).result = none) :
    ServerManager.restart fs p bindOk m = (m, []) := by
  simp [ServerManager.restart, h]

/-- Claim C1 witness: a concrete failing reload leaves a concrete manager
untouched with an empty trace. -/
theorem C1_witness :
    (loadCredentials fsNotFound defaultPaths).result = none ∧
    ServerManager.restart fsNotFound defaultPaths true newManager = (newManager, []) :=
  ⟨rfl, C1_restart_load_failure fsNotFound defaultPaths true newManager rfl⟩

/-- Claim C3: whenever all three reads succeed, `loadCredentials` returns
credentials whose `cert`, `key` and `ca` fields are the exact bytes read
from the cert, key and bundle paths, with
`requestCert = rejectUnauthorized = true`. -/
theorem C3_load_success (fs : FSModel) (p : SvidPaths) (c k b : String)
    (hc : fs p.certPath = .ok c) (hk : fs p.keyPath = .ok k)
    (hb : fs p.bundlePath = .ok b) :
    (loadCredentials fs p).result =
      some { cert := c, key := k, ca := b
             requestCert := true, rejectUnauthorized := true } := by
  simp [loadCredentials, hc, hk, hb]

/-- Claim C3 witness: on a concrete readable filesystem the loaded
credentials are exactly the on-disk bytes with both mTLS flags true. -/
theorem C3_witness :
    fsAllOk defaultPaths.certPath = Except.ok "mock-cert" ∧
    (loadCredentials fsAllOk defaultPaths).result = some credsOk :=
  ⟨rfl, C3_load_success fsAllOk defaultPaths "mock-cert" "mock-key" "mock-ca" rfl rfl rfl⟩

/-- Claim C4 counterexample: the failure value `loadCredentials` returns
does not carry the underlying cause. Two runs whose reads fail with
different causes (`File not found` versus a permission error) return the
identical value `none` (null, as the test at src/jest-tests.ts line 69
asserts), so no function of the returned value can recover the cause. -/
theorem C4_counterexample :
    (loadCredentials fsNotFound defaultPaths).result = none ∧
    (loadCredentials fsDenied defaultPaths).result = none ∧
    (loadCredentials fsNotFound defaultPaths).result =
      (loadCredentials fsDenied defaultPaths).result ∧
    ¬ ∃ f : Option Credentials → String,
        f (loadCredentials fsNotFound defaultPaths).result = "File not found" ∧
        f (loadCredentials fsDenied defaultPaths).result = "EACCES: permission denied" := by
  refine ⟨rfl, rfl, rfl, ?_⟩
  rintro ⟨f, h1, h2⟩
  have e1 : (loadCredentials fsNotFound defaultPaths).result = none := rfl
  have e2 : (loadCredentials fsDenied defaultPaths).result = none := rfl
  rw [e1] at h1
  rw [e2] at h2
  exact absurd (h1.symm.trans h2) (by decide)

/-- Claim C4 amended: whenever reading any one of the three files fails,
`loadCredentials` returns null — a failure value carrying no cause; the
cause appears only in the console output — and never returns a partial
`Credentials` (no credential value of any kind is returned). -/
theorem C4_load_failure_amended (fs : FSModel) (p : SvidPaths)
    (h : ∃ q ∈ svidFiles p, isErr (fs q) = true) :
    (loadCredentials fs p).result = none ∧
    ∃ e, (loadCredentials fs p).logs =
      ["Error loading credentials: " ++ e, "Retrying in 5 seconds..."] := by
  rcases hc : fs p.certPath with ec | cb
  · exact ⟨by simp [loadCredentials, hc], ec, by simp [loadCredentials, hc]⟩
  · rcases hk : fs p.keyPath with ek | kb
    · exact ⟨by simp [loadCredentials, hc, hk], ek, by simp [loadCredentials, hc, hk]⟩
    · rcases hb : fs p.bundlePath with eb | bb
      · exact ⟨by simp [loadCredentials, hc, hk, hb], eb,
          by simp [loadCredentials, hc, hk, hb]⟩
      · exfalso
        obtain ⟨q, hq, hqe⟩ := h
        simp only [svidFiles, List.mem_cons, List.not_mem_nil, or_false] at hq
        rcases hq with rfl | rfl | rfl <;> simp [isErr, hc, hk, hb] at hqe

/-- Claim C4 witness: on a concrete filesystem where every read fails, the
result is null. -/
theorem C4_witness :
    (∃ q ∈ svidFiles defaultPaths, isErr (fsNotFound q) = true) ∧
    (loadCredentials fsNotFound defaultPaths).result = none :=
  ⟨⟨defaultPaths.certPath, by simp [svidFiles], rfl⟩,
   (C4_load_failure_amended fsNotFound defaultPaths
      ⟨defaultPaths.certPath, by simp [svidFiles], rfl⟩).1⟩

/-- Claim C8 counterexample: `loadCredentials` does emit log output of its
own. On a failing read it prints the error line and a retry notice —
exactly the two console lines the unit test asserts at
src/jest-tests.ts lines 72-73 — so its side effects are not limited to
the three reads. -/
theorem C8_counterexample :
    (loadCredentials fsNotFound defaultPaths).logs =
      ["Error loading credentials: File not found", "Retrying in 5 seconds..."] ∧
    (loadCredentials fsNotFound defaultPaths).logs ≠ [] := by
  exact ⟨rfl, by decide⟩

/-- Claim C8 amended: within one call `loadCredentials` performs a single
attempt — it reads each path at most once, in the fixed order cert, key,
bundle, stopping at the first failure (its read trace is one of the
three prefixes of that order) and returns without retrying internally —
and it emits no log output on success; on failure, however, it does log
the cause and a retry notice of its own (retry itself is still the
caller's responsibility). -/
theorem C8_load_effects_amended (fs : FSModel) (p : SvidPaths) :
    ((loadCredentials fs p).reads = [p.certPath] ∨
     (loadCredentials fs p).reads = [p.certPath, p.keyPath] ∨
     (loadCredentials fs p).reads = [p.certPath, p.keyPath, p.bundlePath]) ∧
    (∀ c : Credentials, (loadCredentials fs p).result = some c →
        (loadCredentials fs p).logs = []) ∧
    ((loadCredentials fs p).result = none →
        ∃ e, (loadCredentials fs p).logs =
          ["Error loading credentials: " ++ e, "Retrying in 5 seconds..."]) := by
  rcases hc : fs p.certPath with ec | cb
  · refine ⟨Or.inl (by simp [loadCredentials, hc]), ?_, ?_⟩
    · intro c hcon; simp [loadCredentials, hc] at hcon
    · intro _; exact ⟨ec, by simp [loadCredentials, hc]⟩
  · rcases hk : fs p.keyPath with ek | kb
    · refine ⟨Or.inr (Or.inl (by simp [loadCredentials, hc, hk])), ?_, ?_⟩
      · intro c hcon; simp [loadCredentials, hc, hk] at hcon
      · intro _; exact ⟨ek, by simp [loadCredentials, hc, hk]⟩
    · rcases hb : fs p.bundlePath with eb | bb
      · refine ⟨Or.inr (Or.inr (by simp [loadCredentials, hc, hk, hb])), ?_, ?_⟩
        · intro c hcon; simp [loadCredentials, hc, hk, hb] at hcon
        · intro _; exact ⟨eb, by simp [loadCredentials, hc, hk, hb]⟩
      · refine ⟨Or.inr (Or.inr (by simp [loadCredentials, hc, hk, hb])), ?_, ?_⟩
        · intro c _; simp [loadCredentials, hc, hk, hb]
        · intro hcon; simp [loadCredentials, hc, hk, hb] at hcon

/-- Claim C8 witness: a concrete successful load reads silently. -/
theorem C8_witness :
    (loadCredentials fsAllOk defaultPaths).result = some credsOk ∧
    (loadCredentials fsAllOk defaultPaths).logs = [] :=
  ⟨rfl, (C8_load_effects_amended fsAllOk defaultPaths).2.1 credsOk rfl⟩

/-- Claim C2 counterexample: there is no debounce. Two raw change events
on the same watched credential file 10 time units apart — well inside
any debounce window of the spec's stated default order (tens of
milliseconds to seconds) — produce two callback invocations, not one:
the change handler invokes the callback immediately on every event. -/
theorem C2_counterexample :
    (processChanges (svidFiles defaultPaths)
        [{ time := 0, path := "/run/spire/x509svid/svid.0.pem" },
         { time := 10, path := "/run/spire/x509svid/svid.0.pem" }]).length = 2 ∧
    ¬ (processChanges (svidFiles defaultPaths)
        [{ time := 0, path := "/run/spire/x509svid/svid.0.pem" },
         { time := 10, path := "/run/spire/x509svid/svid.0.pem" }]).length = 1 := by
  decide

/-- Claim C2 amended: every raw change event on a watched credential file
invokes the rotation callback exactly once, immediately at the event's
own time; hence N raw events produce exactly N invocations regardless of
how closely or widely they are spaced — there is no debounce window. -/
theorem C2_change_events_amended (watched : List String) (evs : List ChangeEvent)
    (h : ∀ e ∈ evs, e.path ∈ watched) :
    processChanges watched evs = evs.map (fun e => e.time) ∧
    (processChanges watched evs).length = evs.length := by
  have hmain : processChanges watched evs = evs.map (fun e => e.time) := by
    induction evs with
    | nil => rfl
    | cons e rest ih =>
        have he : e.path ∈ watched := h e (List.mem_cons_self e rest)
        have hrest : ∀ x ∈ rest, x.path ∈ watched :=
          fun x hx => h x (List.mem_cons_of_mem e hx)
        simp only [processChanges, List.filterMap_cons, if_pos he, List.map_cons]
        exact congrArg (List.cons e.time) (ih hrest)
  exact ⟨hmain, by rw [hmain, List.length_map]⟩

/-- Claim C2 witness: two concrete events far apart produce one immediate
invocation each. -/
theorem C2_witness :
    processChanges (svidFiles defaultPaths)
        [{ time := 0, path := "/run/spire/x509svid/svid.0.pem" },
         { time := 100000, path := "/run/spire/x509svid/svid.0.key" }] = [0, 100000] :=
  (C2_change_events_amended (svidFiles defaultPaths)
    [{ time := 0, path := "/run/spire/x509svid/svid.0.pem" },
     { time := 100000, path := "/run/spire/x509svid/svid.0.key" }] (by decide)).1

/-- Claim C10: whenever `loadCredentials` yields null at request time, the
`/ping` handler responds 500 `Server credentials not available` and
makes no outbound request to the pong service, whatever the pong
service would have answered. -/
theorem C10_ping_no_credentials (pongHost pongPort pongPath : String)
    (pong : Except String String) :
    pingHandler pongHost pongPort pongPath none pong =
      ({ status := 500, body := "Server credentials not available" }, none) := rfl

/-- A concrete manager holding an old listener (id 0). -/
def mgrWithOld : ServerManager :=
  { nextId := 1, active := some 0, activeCreds := some credsOk }

/-- Claim C6: when the reload succeeds and the new listener binds,
`ServerManager.restart` closes the old listener exactly once, and that
close occurs strictly after the new listener reports bound: the trace is
create-new (position 0), listen-new (position 1), close-old (position
2), the close of the old listener occurs at position 2 only, and the new
listener becomes the active reference. -/
theorem C6_restart_success (fs : FSModel) (p : SvidPaths) (m : ServerManager)
    (c : Credentials) (old : Nat)
    (hl : (loadCredentials fs p).result = some c) (ha : m.active = some old) :
    (ServerManager.restart fs p true m).2 =
      [ServerEvent.createdServer m.nextId c, ServerEvent.listened m.nextId,
       ServerEvent.closedServer old] ∧
    (∀ j, ((ServerManager.restart fs p true m).2).get? j =
        some (ServerEvent.closedServer old) → j = 2) ∧
    ((ServerManager.restart fs p true m).2).get? 1 =
      some (ServerEvent.listened m.nextId) ∧
    ((ServerManager.restart fs p true m).2).get? 2 =
      some (ServerEvent.closedServer old) ∧
    (ServerManager.restart fs p true m).1.active = some m.nextId := by
  have htr : (ServerManager.restart fs p true m).2 =
      [ServerEvent.createdServer m.nextId c, ServerEvent.listened m.nextId,
       ServerEvent.closedServer old] := by
    simp [ServerManager.restart, hl, ha]
  refine ⟨htr, ?_, ?_, ?_, ?_⟩
  · intro j hj
    rw [htr] at hj
    rcases j with _ | _ | _ | j
    · simp at hj
    · simp at hj
    · rfl
    · simp at hj
  · rw [htr]; rfl
  · rw [htr]; rfl
  · simp [ServerManager.restart, hl]

/-- Claim C6 witness: a concrete successful restart over an old listener
with id 0 yields the trace create 1, listen 1, close 0. -/
theorem C6_witness :
    (ServerManager.restart fsAllOk defaultPaths true mgrWithOld).2 =
      [ServerEvent.createdServer 1 credsOk, ServerEvent.listened 1,
       ServerEvent.closedServer 0] :=
  (C6_restart_success fsAllOk defaultPaths mgrWithOld credsOk 0 rfl rfl).1

/-- Claim C7: at bootstrap the server is created and started if and only
if the initial `loadCredentials` succeeds; the rotation monitor is
constructed and initialized in either case; and every rotation callback
the monitor delivers invokes `ServerManager.restart` on the bootstrap's
manager (one restart call per delivered rotation, with exactly the
restart's state change and event trace). -/
theorem C7_bootstrap_wiring (fs : FSModel) (ex : String → Bool) :
    ((bootstrapService fs ex).serverCreated = true ↔
        ((loadCredentials fs defaultPaths).result).isSome = true) ∧
    ((bootstrapService fs ex).serverStarted = true ↔
        ((loadCredentials fs defaultPaths).result).isSome = true) ∧
    (bootstrapService fs ex).monitorInited = true ∧
    (bootstrapService fs ex).monitor = SVIDMonitor.init ex defaultPaths ∧
    (∀ c, (loadCredentials fs defaultPaths).result = some c →
        (bootstrapService fs ex).manager = ((newManager.createServer c).1.start).1) ∧
    (∀ fs2 b st, (deliverRotation fs2 b st).1.restartCalls = st.restartCalls + 1 ∧
        (deliverRotation fs2 b st).1.manager =
          (ServerManager.restart fs2 defaultPaths b st.manager).1 ∧
        (deliverRotation fs2 b st).2 =
          (ServerManager.restart fs2 defaultPaths b st.manager).2) := by
  have hdel : ∀ (fs2 : FSModel) (b : Bool) (st : SystemState),
      (deliverRotation fs2 b st).1.restartCalls = st.restartCalls + 1 ∧
      (deliverRotation fs2 b st).1.manager =
        (ServerManager.restart fs2 defaultPaths b st.manager).1 ∧
      (deliverRotation fs2 b st).2 =
        (ServerManager.restart fs2 defaultPaths b st.manager).2 :=
    fun _ _ _ => ⟨rfl, rfl, rfl⟩
  rcases hl : (loadCredentials fs defaultPaths).result with _ | c
  · refine ⟨?_, ?_, ?_, ?_, ?_, hdel⟩ <;> simp [bootstrapService, hl]
  · refine ⟨?_, ?_, ?_, ?_, ?_, hdel⟩ <;> simp [bootstrapService, hl]

/-- Claim C7 witness: with concrete readable files the bootstrap creates
and starts the server from the loaded credentials and initializes the
monitor. -/
theorem C7_witness :
    (bootstrapService fsAllOk exNone).manager =
      ((newManager.createServer credsOk).1.start).1 ∧
    (bootstrapService fsAllOk exNone).monitorInited = true :=
  ⟨(C7_bootstrap_wiring fsAllOk exNone).2.2.2.2.1 credsOk rfl,
   (C7_bootstrap_wiring fsAllOk exNone).2.2.1⟩

/-- Helper: the `add` handler does nothing once the monitor watches the
exact files. -/
theorem onAdd_watch (p : SvidPaths) (ex : String → Bool) :
    (watchMonitor p).onAdd p ex = (watchMonitor p, 0) := rfl

/-- Helper: the `add` handler in awaiting mode re-checks existence and
transitions (firing once) exactly when all three files now exist. -/
theorem onAdd_await (p : SvidPaths) (ex : String → Bool) :
    (awaitMonitor p).onAdd p ex =
      if (svidFiles p).all ex then (watchMonitor p, 1) else (awaitMonitor p, 0) := rfl

/-- Helper: once watching the exact files, no amount of further `add`
events changes the monitor or fires the transition callback. -/
theorem runAdds_watch (p : SvidPaths) (ex : String → Bool) (adds : List String) :
    runAdds p ex adds (watchMonitor p) = (watchMonitor p, 0) := by
  induction adds generalizing ex with
  | nil => rfl
  | cons a rest ih => simp [runAdds, onAdd_watch, ih]

/-- Helper: extending an existence predicate by no created files changes
nothing observable by `all`. -/
theorem all_extend_nil (l : List String) (ex : String → Bool) :
    l.all (extendEx ex []) = l.all ex := by
  rw [Bool.eq_iff_iff]
  simp [List.all_eq_true, extendEx]

/-- Helper: checking existence after the first creation, extended by the
remaining creations, is checking existence extended by all creations. -/
theorem all_extend_cons (l : List String) (ex : String → Bool) (a : String)
    (rest : List String) :
    l.all (extendEx (fun q => ex q || decide (q = a)) rest) =
      l.all (extendEx ex (a :: rest)) := by
  rw [Bool.eq_iff_iff]
  simp only [List.all_eq_true, extendEx, Bool.or_eq_true, decide_eq_true_eq,
    List.mem_cons]
  constructor <;> intro h q hq <;> have h2 := h q hq <;> tauto

/-- Helper: if all files exist already after the first creation, they all
exist after all the creations. -/
theorem all_extend_mono (l : List String) (ex : String → Bool) (a : String)
    (rest : List String)
    (h : l.all (fun q => ex q || decide (q = a)) = true) :
    l.all (extendEx ex (a :: rest)) = true := by
  rw [List.all_eq_true] at h ⊢
  intro q hq
  have h2 := h q hq
  simp only [Bool.or_eq_true, decide_eq_true_eq] at h2
  simp only [extendEx, Bool.or_eq_true, decide_eq_true_eq, List.mem_cons]
  tauto

/-- Helper: the complete behaviour of a directory-watching monitor under a
sequence of file creations: it ends up watching the exact files, having
fired the rotation callback exactly once, precisely when at least one
`add` event arrived and all three files exist afterwards; otherwise it
is still awaiting and has fired nothing. -/
theorem runAdds_await (p : SvidPaths) (ex : String → Bool) (adds : List String) :
    runAdds p ex adds (awaitMonitor p) =
      if adds ≠ [] ∧ (svidFiles p).all (extendEx ex adds) = true
      then (watchMonitor p, 1) else (awaitMonitor p, 0) := by
  induction adds generalizing ex with
  | nil => simp [runAdds]
  | cons a rest ih =>
      by_cases hA : (svidFiles p).all (fun q => ex q || decide (q = a)) = true
      · have hfull : (svidFiles p).all (extendEx ex (a :: rest)) = true :=
          all_extend_mono (svidFiles p) ex a rest hA
        simp [runAdds, onAdd_await, hA, runAdds_watch, hfull]
      · rw [Bool.not_eq_true] at hA
        have step : runAdds p ex (a :: rest) (awaitMonitor p) =
            runAdds p (fun q => ex q || decide (q = a)) rest (awaitMonitor p) := by
          simp [runAdds, onAdd_await, hA]
        rw [step, ih, all_extend_cons]
        rcases rest with _ | ⟨b, rest2⟩
        · have h1 : (svidFiles p).all (extendEx ex [a]) = false := by
            rw [← all_extend_cons (svidFiles p) ex a [], all_extend_nil, hA]
          simp [h1]
        · simp

/-- Claim C5: a monitor initialized when all three configured files exist
starts in `watchingFiles`, subscribed to the three exact paths (with
`change`/`error` events); initialized when they do not all exist it
starts in `awaitingFiles`, subscribed to the containing directory's
`add` events; and from awaiting mode it transitions to `watchingFiles`,
firing the first-appearance rotation callback, exactly once — precisely
when the created entries make all three files present. -/
theorem C5_monitor_state_machine (p : SvidPaths) (ex : String → Bool) :
    ((svidFiles p).all ex = true →
        (SVIDMonitor.init ex p).state = WatchState.watchingFiles ∧
        (SVIDMonitor.init ex p).target = WatchTarget.files (svidFiles p) ∧
        (SVIDMonitor.init ex p).subscribedEvents = ["change", "error"]) ∧
    ((svidFiles p).all ex = false →
        (SVIDMonitor.init ex p).state = WatchState.awaitingFiles ∧
        (SVIDMonitor.init ex p).target = WatchTarget.directory (dirname p.certPath) ∧
        (SVIDMonitor.init ex p).subscribedEvents = ["add"]) ∧
    (∀ adds, (svidFiles p).all ex = false →
        (runAdds p ex adds (SVIDMonitor.init ex p)).2 ≤ 1 ∧
        ((runAdds p ex adds (SVIDMonitor.init ex p)).1.state =
            WatchState.watchingFiles ↔
          (runAdds p ex adds (SVIDMonitor.init ex p)).2 = 1) ∧
        ((runAdds p ex adds (SVIDMonitor.init ex p)).2 = 1 ↔
          adds ≠ [] ∧ (svidFiles p).all (extendEx ex adds) = true)) := by
  refine ⟨?_, ?_, ?_⟩
  · intro h
    refine ⟨?_, ?_, ?_⟩ <;> simp [SVIDMonitor.init, h, watchMonitor]
  · intro h
    refine ⟨?_, ?_, ?_⟩ <;> simp [SVIDMonitor.init, h, awaitMonitor]
  · intro adds h
    have hinit : SVIDMonitor.init ex p = awaitMonitor p := by
      simp [SVIDMonitor.init, h]
    rw [hinit, runAdds_await]
    by_cases hc : adds ≠ [] ∧ (svidFiles p).all (extendEx ex adds) = true
    · rw [if_pos hc]
      simp [watchMonitor, hc]
    · rw [if_neg hc]
      exact ⟨Nat.zero_le 1, by simp [awaitMonitor],
        fun h01 => absurd h01 Nat.zero_ne_one, fun hcond => absurd hcond hc⟩

/-- Claim C5 witness: starting with no files present the monitor awaits
the directory; after the three files are created it has transitioned,
watching the exact paths, and fired the callback exactly once. -/
theorem C5_witness :
    (svidFiles defaultPaths).all exNone = false ∧
    (SVIDMonitor.init exNone defaultPaths).state = WatchState.awaitingFiles ∧
    (runAdds defaultPaths exNone (svidFiles defaultPaths)
        (SVIDMonitor.init exNone defaultPaths)).2 = 1 ∧
    (runAdds defaultPaths exNone (svidFiles defaultPaths)
        (SVIDMonitor.init exNone defaultPaths)).1.state = WatchState.watchingFiles := by
  have h := C5_monitor_state_machine defaultPaths exNone
  have hfalse : (svidFiles defaultPaths).all exNone = false := by decide
  have hrun := h.2.2 (svidFiles defaultPaths) hfalse
  have hone : (runAdds defaultPaths exNone (svidFiles defaultPaths)
      (SVIDMonitor.init exNone defaultPaths)).2 = 1 :=
    hrun.2.2.mpr ⟨by decide, by decide⟩
  exact ⟨hfalse, (h.2.1 hfalse).1, hone, hrun.2.1.mpr hone⟩

/-- Helper: rotation signals arriving while a restart is executing only
mark the single pending slot; the scheduler state is otherwise
unchanged. -/
theorem schedRun_rotations (k : Nat) :
    ∀ s : RestartScheduler, s.running = true → 1 ≤ k →
      schedRun s (List.replicate k RotSig.rotation) = { s with pending := true } := by
  induction k with
  | zero => intro s _ hk; omega
  | succ n ih =>
      intro s hr _
      have h1 : schedStep s RotSig.rotation = { s with pending := true } := by
        simp [schedStep, hr]
      have hstep : schedRun s (List.replicate (n + 1) RotSig.rotation) =
          schedRun ({ s with pending := true }) (List.replicate n RotSig.rotation) := by
        rw [List.replicate_succ]
        simp [schedRun, h1]
      rw [hstep]
      rcases Nat.eq_zero_or_pos n with rfl | hn
      · rfl
      · exact ih { s with pending := true } hr hn

/-- Claim C9: any number k >= 1 of rotation signals arriving while a
restart is executing collapse into the single pending slot; when the
running restart completes, exactly one additional restart starts (so no
signal is silently dropped, and no more than one re-run happens), and
when that re-run completes with no further signals the scheduler is idle
with no further restart started. -/
theorem C9_pending_restart_coalescing (s : RestartScheduler) (k : Nat)
    (hr : s.running = true) (hk : 1 ≤ k) :
    (schedRun s (List.replicate k RotSig.rotation ++ [RotSig.complete])).restartsStarted
        = s.restartsStarted + 1 ∧
    (schedRun s (List.replicate k RotSig.rotation ++ [RotSig.complete])).running = true ∧
    (schedRun s (List.replicate k RotSig.rotation ++ [RotSig.complete])).pending = false ∧
    (schedStep (schedRun s (List.replicate k RotSig.rotation ++ [RotSig.complete]))
        RotSig.complete).restartsStarted = s.restartsStarted + 1 ∧
    (schedStep (schedRun s (List.replicate k RotSig.rotation ++ [RotSig.complete]))
        RotSig.complete).running = false := by
  have h1 : schedRun s (List.replicate k RotSig.rotation ++ [RotSig.complete]) =
      schedStep (schedRun s (List.replicate k RotSig.rotation)) RotSig.complete := by
    simp [schedRun, List.foldl_append]
  rw [schedRun_rotations k s hr hk] at h1
  have h2 : schedStep ({ s with pending := true }) RotSig.complete =
      { running := true, pending := false
        restartsStarted := s.restartsStarted + 1 } := by
    simp [schedStep]
  rw [h2] at h1
  rw [h1]
  exact ⟨rfl, rfl, rfl, by simp [schedStep], by simp [schedStep]⟩

/-- Claim C9 witness: three signals during a running restart yield exactly
one re-run after it completes, and then quiescence. -/
theorem C9_witness :
    (schedRun { running := true, pending := false, restartsStarted := 1 }
        (List.replicate 3 RotSig.rotation ++ [RotSig.complete])).restartsStarted = 2 ∧
    (schedStep (schedRun { running := true, pending := false, restartsStarted := 1 }
        (List.replicate 3 RotSig.rotation ++ [RotSig.complete]))
        RotSig.complete).running = false :=
  ⟨(C9_pending_restart_coalescing
      { running := true, pending := false, restartsStarted := 1 } 3 rfl (by decide)).1,
   (C9_pending_restart_coalescing
      { running := true, pending := false, restartsStarted := 1 } 3 rfl (by decide)).2.2.2.2⟩
